import Mathlib

/-!
Shallow embedding of `scripts/generate-brand-assets.py`.

Strings are modelled as `List Char` (Python `str` read as UTF-8 text).
Filesystem paths are plain strings; `Path.__truediv__` (the `/` join) is
modelled by `joinPath`.  External effects (directory creation, rasterising,
container writes) are recorded as explicit effect values, so that what a run
writes to disk is the list of effects it emits.
-/

namespace BrandAssets

/-- Models `pathlib.Path.__truediv__`: `out_dir / filename`. -/
def joinPath (dir file : String) : String := dir ++ "/" ++ file

/-! ### Constant tables (source lines 12-20) -/

/-- `DEFAULT_SPECS` from the source: the fixed (prefix, sizes) table. -/
def DEFAULT_SPECS : List (String × List Nat) :=
  [ ("android-icon", [36, 48, 72, 96, 144, 192]),
    ("apple-icon", [57, 60, 72, 76, 114, 120, 144, 152, 180]),
    ("favicon", [16, 32, 96]),
    ("ms-icon", [70, 144, 150]) ]

/-- `FAVICON_ICO_SIZES` from the source. -/
def FAVICON_ICO_SIZES : List Nat := [16, 32, 48]

/-- `FAVICON_SVG_SIZE` from the source. -/
def FAVICON_SVG_SIZE : Nat := 48

/-! ### The regex machinery of `write_favicon_svg` (source lines 103-131)

The source compiles three patterns, all written as Python *raw* strings with a
doubled backslash:

* `re.search(r"<svg\\b[^>]*>", content, flags=re.IGNORECASE)` — the pattern
  text is `<svg` followed by an *escaped backslash* `\\` and a literal `b`
  (not the word-boundary assertion `\b`), then `[^>]*>`.
* `r'\\bwidth="[^"]*"'` and `r'\\bheight="[^"]*"'` — likewise a literal
  backslash, `b`, then the attribute text; these two are case-sensitive.

The embedding reproduces those patterns exactly as the `re` module reads
them: a match of `<svg\b[^>]*>` (case-insensitively) is a literal
case-insensitive `<svg\b` followed by the shortest run of non-`>` characters
ending at a `>`.
-/

/-- The six literal characters of the compiled root-tag pattern prefix:
`<`, `s`, `v`, `g`, a backslash, `b` (matched case-insensitively). -/
def svgTagPrefix : List Char := ['<', 's', 'v', 'g', '\\', 'b']

/-- Case-insensitive literal-prefix match (models `re.IGNORECASE` on a
pattern of literal characters). -/
def matchesPrefixCI : List Char → List Char → Bool
  | [], _ => true
  | _ :: _, [] => false
  | p :: ps, c :: cs => (p.toLower == c.toLower) && matchesPrefixCI ps cs

/-- Split a character list at its first `>`: returns the segment up to and
including that `>`, and the remainder.  `none` when no `>` occurs.  This is
how the greedy `[^>]*>` tail of the root-tag pattern matches. -/
def takeToGt : List Char → Option (List Char × List Char)
  | [] => none
  | c :: cs =>
      if c = '>' then some ([c], cs)
      else
        match takeToGt cs with
        | some (a, b) => some (c :: a, b)
        | none => none

/-- `re.search(r"<svg\\b[^>]*>", content, flags=re.IGNORECASE)`: find the
leftmost occurrence of the pattern; on success return
(text before the match, the matched tag, text after the match). -/
def searchSvgTag : List Char → Option (List Char × List Char × List Char)
  | [] => none
  | c :: cs =>
      if matchesPrefixCI svgTagPrefix (c :: cs) then
        match takeToGt (List.drop 6 (c :: cs)) with
        | some (mid, rest) => some ([], List.take 6 (c :: cs) ++ mid, rest)
        | none => none
      else
        match searchSvgTag cs with
        | some (pre, tag, post) => some (c :: pre, tag, post)
        | none => none

/-- Split a character list at its first `"`: the part before it and the part
after it (`none` when no quote occurs).  This is how the `[^"]*"` tail of the
attribute patterns matches. -/
def splitAtQuote : List Char → Option (List Char × List Char)
  | [] => none
  | c :: cs =>
      if c = '"' then some ([], cs)
      else
        match splitAtQuote cs with
        | some (a, b) => some (c :: a, b)
        | none => none

/-- Try the attribute pattern (`pre` is its literal prefix, e.g. the
characters of `\bwidth="`) at the head of `l`; on a match return the
remainder of `l` after the whole match. -/
def matchAttrAt (pre : List Char) (l : List Char) : Option (List Char) :=
  if pre.isPrefixOf l then
    match splitAtQuote (List.drop pre.length l) with
    | some (_, rest) => some rest
    | none => none
  else none

/-- `re.search` for an attribute pattern: does it match anywhere? -/
def hasAttrMatch (pre : List Char) : List Char → Bool
  | [] => false
  | c :: cs => (matchAttrAt pre (c :: cs)).isSome || hasAttrMatch pre cs

/-- `re.sub` for an attribute pattern: replace every (leftmost,
non-overlapping) match by `repl`.  Fuelled recursion: every step consumes at
least one character, so fuel equal to the input length makes this total and
equal to the unfuelled replacement. -/
def subAttrFuel (pre repl : List Char) : Nat → List Char → List Char
  | 0, l => l
  | _ + 1, [] => []
  | fuel + 1, c :: cs =>
      match matchAttrAt pre (c :: cs) with
      | some rest => repl ++ subAttrFuel pre repl fuel rest
      | none => c :: subAttrFuel pre repl fuel cs

/-- `re.sub(pre-pattern, repl, l)`. -/
def subAttr (pre repl l : List Char) : List Char :=
  subAttrFuel pre repl l.length l

/-- Literal prefix of the pattern `r'\\bwidth="[^"]*"'`: a backslash, `b`,
then `width="`. -/
def widthAttrPre : List Char := "\\bwidth=\"".toList

/-- Literal prefix of the pattern `r'\\bheight="[^"]*"'`. -/
def heightAttrPre : List Char := "\\bheight=\"".toList

/-- Python `s[:-n]`. -/
def dropRight (l : List Char) (n : Nat) : List Char := List.take (l.length - n) l

/-- One attribute block of `write_favicon_svg` (the `width` block, and again
for `height`): if the attribute pattern matches, substitute every match by
`name="size"`; otherwise append ` name="size"` before the tag's closing,
handling both `/>` and `>` endings. -/
def updateAttr (pre : List Char) (name : String) (size : Nat) (tag : List Char) :
    List Char :=
  if hasAttrMatch pre tag then
    subAttr pre (name ++ "=\"" ++ toString size ++ "\"").toList tag
  else
    if ['/', '>'].isSuffixOf tag then
      dropRight tag 2 ++ (" " ++ name ++ "=\"" ++ toString size ++ "\"/>").toList
    else
      dropRight tag 1 ++ (" " ++ name ++ "=\"" ++ toString size ++ "\">").toList

/-- Result of `write_favicon_svg`: the text written to the destination and
whether `out_path.parent.mkdir(parents=True, exist_ok=True)` was called. -/
structure FaviconWrite where
  output : List Char
  mkdir_parent : Bool
  deriving Repr, DecidableEq

/-- `write_favicon_svg(svg_path, out_path, size)` as a function of the source
file's text.  When the root-tag pattern does not match, the source falls back
to `shutil.copyfile` (a verbatim byte-for-byte copy, with no directory
creation); when it matches, the tag is rewritten (width first, then height),
spliced back, the parent directory is created, and the text is written. -/
def write_favicon_svg (content : List Char) (size : Nat) : FaviconWrite :=
  match searchSvgTag content with
  | none => { output := content, mkdir_parent := false }
  | some (pre, tag, post) =>
      let updated := updateAttr widthAttrPre "width" size tag
      let updated := updateAttr heightAttrPre "height" size updated
      { output := pre ++ updated ++ post, mkdir_parent := true }

/-! ### `render_ico` (source lines 83-100)

The loop converts each size of `FAVICON_ICO_SIZES` in order to an in-memory
frame (`cairosvg.svg2png` with no `write_to`, then `Image.open` on the
bytes); only after the whole loop does it create the destination's parent
directory and save one ICO container: `images[0]` as the primary image, the
embedded `sizes` list, and `images[1:]` appended.  The converter is abstract
(`convert svg size` models `Image.open(BytesIO(svg2png(url=svg, ...)))`),
returning a frame or the exception it raises. -/

/-- Disk effects of `render_ico`. -/
inductive IcoEffect (Frame : Type) where
  /-- `out_path.parent.mkdir(parents=True, exist_ok=True)` -/
  | mkdirParent (out_path : String)
  /-- `images[0].save(out_path, format="ICO", sizes=..., append_images=...)` -/
  | saveIco (out_path : String) (primary : Frame) (sizes : List (Nat × Nat))
      (append_images : List Frame)
  deriving Repr, DecidableEq

/-- The frame-rendering loop of `render_ico`: convert every size in order,
stopping at the first raised exception (in-memory only, no disk effect). -/
def renderIcoFrames {Frame : Type} (convert : String → Nat → Except String Frame)
    (svg_path : String) : List Nat → Except String (List Frame)
  | [] => .ok []
  | s :: rest => do
      let f ← convert svg_path s
      let fs ← renderIcoFrames convert svg_path rest
      pure (f :: fs)

/-- `render_ico(cairosvg, Image, svg_path, out_path)`: the disk effects it
performs, paired with its outcome (`.error` when a conversion raises, in
which case the effects already performed are exactly the first component). -/
def render_ico {Frame : Type} (convert : String → Nat → Except String Frame)
    (svg_path out_path : String) : List (IcoEffect Frame) × Except String Unit :=
  match renderIcoFrames convert svg_path FAVICON_ICO_SIZES with
  | .error e => ([], .error e)
  | .ok [] => ([], .error "IndexError")
  | .ok (i0 :: rest) =>
      ([.mkdirParent out_path,
        .saveIco out_path i0 (FAVICON_ICO_SIZES.map fun s => (s, s)) rest],
       .ok ())

/-! ### `resolve_svg` (source lines 138-144) and `main` (lines 133-182) -/

/-- Environment a run observes: which paths exist, the directory holding the
script (`Path(__file__).resolve().parent`), and whether the two external
packages (`cairosvg`, `PIL`) import successfully. -/
structure Env where
  fileExists : String → Bool
  script_dir : String
  cairosvg_ok : Bool
  pillow_ok : Bool

/-- The parsed command line (`parse_args`). -/
structure Args where
  avatar_svg : Option String
  extended_light : Option String
  extended_dark : Option String
  out_dir : String
  skip_favicon_svg : Bool

/-- Python truthiness of an `str | None` argument value. -/
def truthy : Option String → Bool
  | none => false
  | some s => s ≠ ""

/-- `resolve_svg(arg_value, script_name, fallback)` (a closure over
`script_dir`): the explicit value verbatim when truthy; else the
co-located `script_dir / script_name` when it exists; else `Path(fallback)`. -/
def resolve_svg (fileExists : String → Bool) (script_dir : String)
    (arg_value : Option String) (script_name fallback : String) : String :=
  if truthy arg_value then arg_value.getD ""
  else
    let local_path := joinPath script_dir script_name
    if fileExists local_path then local_path else fallback

/-- The rendering calls `main` makes, in program order.  `render_png` is
inlined as its `svg2png` call (`url`, `write_to`, `output_width`,
`output_height`); `render_ico` and `write_favicon_svg` appear as single
calls whose internals are modelled above. -/
inductive Effect where
  /-- `render_png`: `cairosvg.svg2png(url, write_to, output_width, output_height)` -/
  | svg2pngFile (url write_to : String) (output_width output_height : Nat)
  /-- `render_ico(cairosvg, Image, svg_path, out_path)` -/
  | renderIco (svg_path out_path : String)
  /-- `write_favicon_svg(svg_path, out_path, size)` -/
  | writeFaviconSvg (svg_path out_path : String) (size : Nat)
  deriving Repr, DecidableEq

/-- `f"{prefix}-{size}x{size}.png"`. -/
def pngFilename (prefix_ : String) (size : Nat) : String :=
  prefix_ ++ "-" ++ toString size ++ "x" ++ toString size ++ ".png"

/-- The avatar path `main` resolves:
`resolve_svg(args.avatar_svg, "logo_thumbnail.svg", "brand-assets/logo_thumbnail.svg")`. -/
def avatarPath (env : Env) (args : Args) : String :=
  resolve_svg env.fileExists env.script_dir args.avatar_svg
    "logo_thumbnail.svg" "brand-assets/logo_thumbnail.svg"

/-- Result of a run of `main`: the exit status, the rendering calls made (in
order), and the `generated` list of output paths it accumulates. -/
structure RunResult where
  exitCode : Nat
  effects : List Effect
  generated : List String
  deriving Repr, DecidableEq

/-- `main()`: resolve the three sources; exit 1 with no output when the
avatar is missing (extended sources only produce a warning); exit 1 with no
output when either package fails to import (`require_packages`); otherwise
render every `DEFAULT_SPECS` PNG, then `favicon.ico`, then — unless
`--skip-favicon-svg` — `favicon.svg` at `FAVICON_SVG_SIZE`, and exit 0. -/
def mainRun (env : Env) (args : Args) : RunResult :=
  let avatar_svg := avatarPath env args
  if env.fileExists avatar_svg = false then
    { exitCode := 1, effects := [], generated := [] }
  else if env.cairosvg_ok = false then
    { exitCode := 1, effects := [], generated := [] }
  else if env.pillow_ok = false then
    { exitCode := 1, effects := [], generated := [] }
  else
    let pngs := DEFAULT_SPECS.flatMap fun ps =>
      ps.2.map fun size =>
        (Effect.svg2pngFile avatar_svg (joinPath args.out_dir (pngFilename ps.1 size))
          size size,
         joinPath args.out_dir (pngFilename ps.1 size))
    let favTail : List Effect × List String :=
      if args.skip_favicon_svg then ([], [])
      else ([.writeFaviconSvg avatar_svg (joinPath args.out_dir "favicon.svg")
              FAVICON_SVG_SIZE],
            [joinPath args.out_dir "favicon.svg"])
    { exitCode := 0,
      effects := pngs.map Prod.fst
        ++ [.renderIco avatar_svg (joinPath args.out_dir "favicon.ico")]
        ++ favTail.1,
      generated := pngs.map Prod.snd
        ++ [joinPath args.out_dir "favicon.ico"]
        ++ favTail.2 }

/-- The PNG-rendering calls among a run's effects. -/
def pngCalls (l : List Effect) : List Effect :=
  l.filter fun e =>
    match e with
    | .svg2pngFile _ _ _ _ => true
    | _ => false

/-- Recognises the `write_favicon_svg` call among a run's effects. -/
def isWriteFaviconSvg : Effect → Bool
  | .writeFaviconSvg _ _ _ => true
  | _ => false

/-- A filesystem in which every path exists and both packages import. -/
def envAll : Env :=
  { fileExists := fun _ => true, script_dir := "scripts",
    cairosvg_ok := true, pillow_ok := true }

/-- A filesystem in which no path exists. -/
def envNone : Env :=
  { fileExists := fun _ => false, script_dir := "scripts",
    cairosvg_ok := true, pillow_ok := true }

/-- A default command line: no explicit paths, output to `.`, no skip flag. -/
def argsDefault : Args :=
  { avatar_svg := none, extended_light := none, extended_dark := none,
    out_dir := ".", skip_favicon_svg := false }

/-! ### Claims about `write_favicon_svg` -/

/-- C1: the claim says a source whose root tag declares `width` and `height`
is rewritten to `width="48" height="48"`.  The code's pattern
`r"<svg\\b[^>]*>"` demands a literal backslash after `<svg`, so it never
matches this tag: the document `<svg width="200" height="200"></svg>` is
copied verbatim, the original `width="200"` intact, and the parent directory
is not even created (the `shutil.copyfile` fallback runs). -/
theorem C1_width_height_not_rewritten :
    write_favicon_svg ("<svg width=\"200\" height=\"200\"></svg>").toList 48
      = { output := ("<svg width=\"200\" height=\"200\"></svg>").toList,
          mkdir_parent := false } := by
  decide

/-- C2: the claim says a root tag lacking `width`/`height` gets
`width="48" height="48"` appended before its closing.  On
`<svg viewBox="0 0 100 100"><rect/></svg>` the code's root-tag pattern
(literal backslash and `b` after `<svg`) fails to match, so the document is
copied verbatim with nothing appended. -/
theorem C2_attrs_not_appended :
    write_favicon_svg ("<svg viewBox=\"0 0 100 100\"><rect/></svg>").toList 48
      = { output := ("<svg viewBox=\"0 0 100 100\"><rect/></svg>").toList,
          mkdir_parent := false } := by
  decide

/-- C7: whenever the root-tag pattern finds no match in the source text,
`write_favicon_svg` copies the source to the destination verbatim and
returns without failing. -/
theorem C7_no_tag_verbatim_copy (content : List Char) (size : Nat)
    (h : searchSvgTag content = none) :
    write_favicon_svg content size = { output := content, mkdir_parent := false } := by
  simp [write_favicon_svg, h]

/-- Witness for C7 at the concrete tagless document `just text`. -/
theorem C7_no_tag_verbatim_copy_witness :
    searchSvgTag ("just text").toList = none ∧
    write_favicon_svg ("just text").toList 48
      = { output := ("just text").toList, mkdir_parent := false } :=
  ⟨by decide, C7_no_tag_verbatim_copy ("just text").toList 48 (by decide)⟩

/-- C8 counterexample: the claim says every branch of `write_favicon_svg`
ensures the destination's parent directory exists, but on a document with no
matching root tag the `shutil.copyfile` fallback runs with no `mkdir` call. -/
theorem C8_fallback_no_mkdir :
    (write_favicon_svg ("just a text file").toList 48).mkdir_parent = false := by
  decide

/-- C8 (amended): `write_favicon_svg` creates the destination's parent
directory exactly when the root-tag pattern matches (the rewrite path); the
no-tag fallback path copies the file without creating it. -/
theorem C8_mkdir_iff_tag_found (content : List Char) (size : Nat) :
    (write_favicon_svg content size).mkdir_parent = (searchSvgTag content).isSome := by
  cases h : searchSvgTag content with
  | none => simp [write_favicon_svg, h]
  | some m =>
      obtain ⟨pre, tag, post⟩ := m
      simp [write_favicon_svg, h]

/-! ### Claims about `main` -/

/-- C3: when the resolved avatar SVG path does not exist, `main` makes no
rendering call (zero output files) and returns exit status 1. -/
theorem C3_missing_avatar (env : Env) (args : Args)
    (h : env.fileExists (avatarPath env args) = false) :
    mainRun env args = { exitCode := 1, effects := [], generated := [] } := by
  simp [mainRun, h]

/-- Witness for C3 on an empty filesystem with a default command line. -/
theorem C3_missing_avatar_witness :
    envNone.fileExists (avatarPath envNone argsDefault) = false ∧
    mainRun envNone argsDefault = { exitCode := 1, effects := [], generated := [] } :=
  ⟨rfl, C3_missing_avatar envNone argsDefault rfl⟩

/-- C4: on a successful run, the PNG-rendering calls are exactly one call
per (prefix, size) pair of the fixed table — android-icon
{36,48,72,96,144,192}, apple-icon {57,60,72,76,114,120,144,152,180},
favicon {16,32,96}, ms-icon {70,144,150} — each writing
`<prefix>-<size>x<size>.png` in the output directory at exactly
`size × size` pixels, and no others. -/
theorem C4_png_table (env : Env) (args : Args)
    (h1 : env.fileExists (avatarPath env args) = true)
    (h2 : env.cairosvg_ok = true) (h3 : env.pillow_ok = true) :
    pngCalls (mainRun env args).effects =
      [ .svg2pngFile (avatarPath env args) (joinPath args.out_dir "android-icon-36x36.png") 36 36,
        .svg2pngFile (avatarPath env args) (joinPath args.out_dir "android-icon-48x48.png") 48 48,
        .svg2pngFile (avatarPath env args) (joinPath args.out_dir "android-icon-72x72.png") 72 72,
        .svg2pngFile (avatarPath env args) (joinPath args.out_dir "android-icon-96x96.png") 96 96,
        .svg2pngFile (avatarPath env args) (joinPath args.out_dir "android-icon-144x144.png") 144 144,
        .svg2pngFile (avatarPath env args) (joinPath args.out_dir "android-icon-192x192.png") 192 192,
        .svg2pngFile (avatarPath env args) (joinPath args.out_dir "apple-icon-57x57.png") 57 57,
        .svg2pngFile (avatarPath env args) (joinPath args.out_dir "apple-icon-60x60.png") 60 60,
        .svg2pngFile (avatarPath env args) (joinPath args.out_dir "apple-icon-72x72.png") 72 72,
        .svg2pngFile (avatarPath env args) (joinPath args.out_dir "apple-icon-76x76.png") 76 76,
        .svg2pngFile (avatarPath env args) (joinPath args.out_dir "apple-icon-114x114.png") 114 114,
        .svg2pngFile (avatarPath env args) (joinPath args.out_dir "apple-icon-120x120.png") 120 120,
        .svg2pngFile (avatarPath env args) (joinPath args.out_dir "apple-icon-144x144.png") 144 144,
        .svg2pngFile (avatarPath env args) (joinPath args.out_dir "apple-icon-152x152.png") 152 152,
        .svg2pngFile (avatarPath env args) (joinPath args.out_dir "apple-icon-180x180.png") 180 180,
        .svg2pngFile (avatarPath env args) (joinPath args.out_dir "favicon-16x16.png") 16 16,
        .svg2pngFile (avatarPath env args) (joinPath args.out_dir "favicon-32x32.png") 32 32,
        .svg2pngFile (avatarPath env args) (joinPath args.out_dir "favicon-96x96.png") 96 96,
        .svg2pngFile (avatarPath env args) (joinPath args.out_dir "ms-icon-70x70.png") 70 70,
        .svg2pngFile (avatarPath env args) (joinPath args.out_dir "ms-icon-144x144.png") 144 144,
        .svg2pngFile (avatarPath env args) (joinPath args.out_dir "ms-icon-150x150.png") 150 150 ] := by
  cases hskip : args.skip_favicon_svg <;>
    simp [mainRun, h1, h2, h3, hskip, pngCalls, DEFAULT_SPECS, pngFilename,
      FAVICON_SVG_SIZE] <;> and_intros <;> rfl

/-- Witness for C4: an all-true filesystem and the default command line. -/
theorem C4_png_table_witness :
    envAll.fileExists (avatarPath envAll argsDefault) = true ∧
    envAll.cairosvg_ok = true ∧ envAll.pillow_ok = true ∧
    pngCalls (mainRun envAll argsDefault).effects =
      [ .svg2pngFile (avatarPath envAll argsDefault) (joinPath argsDefault.out_dir "android-icon-36x36.png") 36 36,
        .svg2pngFile (avatarPath envAll argsDefault) (joinPath argsDefault.out_dir "android-icon-48x48.png") 48 48,
        .svg2pngFile (avatarPath envAll argsDefault) (joinPath argsDefault.out_dir "android-icon-72x72.png") 72 72,
        .svg2pngFile (avatarPath envAll argsDefault) (joinPath argsDefault.out_dir "android-icon-96x96.png") 96 96,
        .svg2pngFile (avatarPath envAll argsDefault) (joinPath argsDefault.out_dir "android-icon-144x144.png") 144 144,
        .svg2pngFile (avatarPath envAll argsDefault) (joinPath argsDefault.out_dir "android-icon-192x192.png") 192 192,
        .svg2pngFile (avatarPath envAll argsDefault) (joinPath argsDefault.out_dir "apple-icon-57x57.png") 57 57,
        .svg2pngFile (avatarPath envAll argsDefault) (joinPath argsDefault.out_dir "apple-icon-60x60.png") 60 60,
        .svg2pngFile (avatarPath envAll argsDefault) (joinPath argsDefault.out_dir "apple-icon-72x72.png") 72 72,
        .svg2pngFile (avatarPath envAll argsDefault) (joinPath argsDefault.out_dir "apple-icon-76x76.png") 76 76,
        .svg2pngFile (avatarPath envAll argsDefault) (joinPath argsDefault.out_dir "apple-icon-114x114.png") 114 114,
        .svg2pngFile (avatarPath envAll argsDefault) (joinPath argsDefault.out_dir "apple-icon-120x120.png") 120 120,
        .svg2pngFile (avatarPath envAll argsDefault) (joinPath argsDefault.out_dir "apple-icon-144x144.png") 144 144,
        .svg2pngFile (avatarPath envAll argsDefault) (joinPath argsDefault.out_dir "apple-icon-152x152.png") 152 152,
        .svg2pngFile (avatarPath envAll argsDefault) (joinPath argsDefault.out_dir "apple-icon-180x180.png") 180 180,
        .svg2pngFile (avatarPath envAll argsDefault) (joinPath argsDefault.out_dir "favicon-16x16.png") 16 16,
        .svg2pngFile (avatarPath envAll argsDefault) (joinPath argsDefault.out_dir "favicon-32x32.png") 32 32,
        .svg2pngFile (avatarPath envAll argsDefault) (joinPath argsDefault.out_dir "favicon-96x96.png") 96 96,
        .svg2pngFile (avatarPath envAll argsDefault) (joinPath argsDefault.out_dir "ms-icon-70x70.png") 70 70,
        .svg2pngFile (avatarPath envAll argsDefault) (joinPath argsDefault.out_dir "ms-icon-144x144.png") 144 144,
        .svg2pngFile (avatarPath envAll argsDefault) (joinPath argsDefault.out_dir "ms-icon-150x150.png") 150 150 ] :=
  ⟨rfl, rfl, rfl, C4_png_table envAll argsDefault rfl rfl rfl⟩

/-- The resolved avatar path ignores the `--skip-favicon-svg` flag. -/
theorem avatarPath_set_skip (env : Env) (args : Args) (b : Bool) :
    avatarPath env { args with skip_favicon_svg := b } = avatarPath env args := rfl

/-- C6: with `--skip-favicon-svg`, no `write_favicon_svg` call is made and
`favicon.svg` is absent from the `generated` list, while the run without the
flag performs exactly the same effects and accumulates exactly the same
files plus one final `favicon.svg` write; both runs exit 0. -/
theorem C6_skip_favicon_svg (env : Env) (args : Args)
    (h1 : env.fileExists (avatarPath env args) = true)
    (h2 : env.cairosvg_ok = true) (h3 : env.pillow_ok = true) :
    ((mainRun env { args with skip_favicon_svg := true }).effects.all
        fun e => !isWriteFaviconSvg e) = true ∧
    (mainRun env { args with skip_favicon_svg := false }).effects =
      (mainRun env { args with skip_favicon_svg := true }).effects
        ++ [.writeFaviconSvg (avatarPath env args)
              (joinPath args.out_dir "favicon.svg") FAVICON_SVG_SIZE] ∧
    (mainRun env { args with skip_favicon_svg := false }).generated =
      (mainRun env { args with skip_favicon_svg := true }).generated
        ++ [joinPath args.out_dir "favicon.svg"] ∧
    (mainRun env { args with skip_favicon_svg := true }).exitCode = 0 ∧
    (mainRun env { args with skip_favicon_svg := false }).exitCode = 0 := by
  refine ⟨?_, ?_, ?_, ?_, ?_⟩ <;>
    simp [mainRun, avatarPath_set_skip, h1, h2, h3, DEFAULT_SPECS, pngFilename,
      isWriteFaviconSvg]

/-- Witness for C6: an all-true filesystem and the default command line. -/
theorem C6_skip_favicon_svg_witness :
    envAll.fileExists (avatarPath envAll argsDefault) = true ∧
    envAll.cairosvg_ok = true ∧ envAll.pillow_ok = true ∧
    (((mainRun envAll { argsDefault with skip_favicon_svg := true }).effects.all
        fun e => !isWriteFaviconSvg e) = true ∧
      (mainRun envAll { argsDefault with skip_favicon_svg := false }).effects =
        (mainRun envAll { argsDefault with skip_favicon_svg := true }).effects
          ++ [.writeFaviconSvg (avatarPath envAll argsDefault)
                (joinPath argsDefault.out_dir "favicon.svg") FAVICON_SVG_SIZE] ∧
      (mainRun envAll { argsDefault with skip_favicon_svg := false }).generated =
        (mainRun envAll { argsDefault with skip_favicon_svg := true }).generated
          ++ [joinPath argsDefault.out_dir "favicon.svg"] ∧
      (mainRun envAll { argsDefault with skip_favicon_svg := true }).exitCode = 0 ∧
      (mainRun envAll { argsDefault with skip_favicon_svg := false }).exitCode = 0) :=
  ⟨rfl, rfl, rfl, C6_skip_favicon_svg envAll argsDefault rfl rfl rfl⟩

/-! ### Claims about `render_ico` and `resolve_svg` -/

/-- C5: when every conversion succeeds, `render_ico` renders frames for
exactly the ordered size list 16, 32, 48 in memory (no per-frame disk
effect), then creates the parent directory and writes a single container
embedding all three resolutions, with the 16px frame as the primary image
and the 32px and 48px frames appended as alternates. -/
theorem C5_ico_bundle {Frame : Type} (convert : String → Nat → Except String Frame)
    (svg_path out_path : String) (f16 f32 f48 : Frame)
    (h16 : convert svg_path 16 = .ok f16) (h32 : convert svg_path 32 = .ok f32)
    (h48 : convert svg_path 48 = .ok f48) :
    render_ico convert svg_path out_path =
      ([.mkdirParent out_path,
        .saveIco out_path f16 [(16, 16), (32, 32), (48, 48)] [f32, f48]],
       .ok ()) := by
  simp only [render_ico, renderIcoFrames, FAVICON_ICO_SIZES, h16, h32, h48]
  rfl

/-- Witness for C5 with a converter that returns the requested size. -/
theorem C5_ico_bundle_witness :
    (fun (_ : String) (s : Nat) => (Except.ok s : Except String Nat)) "avatar.svg" 16 = .ok 16 ∧
    (fun (_ : String) (s : Nat) => (Except.ok s : Except String Nat)) "avatar.svg" 32 = .ok 32 ∧
    (fun (_ : String) (s : Nat) => (Except.ok s : Except String Nat)) "avatar.svg" 48 = .ok 48 ∧
    render_ico (fun (_ : String) (s : Nat) => (Except.ok s : Except String Nat))
        "avatar.svg" "out/favicon.ico" =
      ([.mkdirParent "out/favicon.ico",
        .saveIco "out/favicon.ico" 16 [(16, 16), (32, 32), (48, 48)] [32, 48]],
       .ok ()) :=
  ⟨rfl, rfl, rfl,
    C5_ico_bundle (fun _ s => Except.ok s) "avatar.svg" "out/favicon.ico" 16 32 48
      rfl rfl rfl⟩

/-- C10: when the conversion of any frame raises, `render_ico` performs no
disk effect at all — no destination file write and no parent-directory
creation — because every frame is rendered in memory before the directory
is ensured and the container saved. -/
theorem C10_ico_failure_writes_nothing {Frame : Type}
    (convert : String → Nat → Except String Frame) (svg_path out_path : String)
    (s : Nat) (e : String)
    (hs : s ∈ FAVICON_ICO_SIZES) (he : convert svg_path s = .error e) :
    (render_ico convert svg_path out_path).1 = [] ∧
    ((render_ico convert svg_path out_path).2).isOk = false := by
  have key : ∃ e2, renderIcoFrames convert svg_path FAVICON_ICO_SIZES = .error e2 := by
    have hs' : s = 16 ∨ s = 32 ∨ s = 48 := by
      simpa [FAVICON_ICO_SIZES] using hs
    rcases hs' with rfl | rfl | rfl
    · exact ⟨e, by simp only [FAVICON_ICO_SIZES, renderIcoFrames, he]; rfl⟩
    · cases h16 : convert svg_path 16 with
      | error a =>
          exact ⟨a, by simp only [FAVICON_ICO_SIZES, renderIcoFrames, h16]; rfl⟩
      | ok f =>
          exact ⟨e, by simp only [FAVICON_ICO_SIZES, renderIcoFrames, h16, he]; rfl⟩
    · cases h16 : convert svg_path 16 with
      | error a =>
          exact ⟨a, by simp only [FAVICON_ICO_SIZES, renderIcoFrames, h16]; rfl⟩
      | ok f =>
          cases h32 : convert svg_path 32 with
          | error a =>
              exact ⟨a, by simp only [FAVICON_ICO_SIZES, renderIcoFrames, h16, h32]; rfl⟩
          | ok g =>
              exact ⟨e, by simp only [FAVICON_ICO_SIZES, renderIcoFrames, h16, h32, he]; rfl⟩
  obtain ⟨e2, he2⟩ := key
  simp [render_ico, he2, Except.isOk, Except.toBool]

/-- Witness for C10 with a converter that always raises. -/
theorem C10_ico_failure_writes_nothing_witness :
    16 ∈ FAVICON_ICO_SIZES ∧
    (fun (_ : String) (_ : Nat) => (Except.error "boom" : Except String Nat))
        "avatar.svg" 16 = .error "boom" ∧
    ((render_ico (fun (_ : String) (_ : Nat) => (Except.error "boom" : Except String Nat))
        "avatar.svg" "out/favicon.ico").1 = [] ∧
      ((render_ico (fun (_ : String) (_ : Nat) => (Except.error "boom" : Except String Nat))
        "avatar.svg" "out/favicon.ico").2).isOk = false) :=
  ⟨by decide, rfl,
    C10_ico_failure_writes_nothing (fun _ _ => Except.error "boom")
      "avatar.svg" "out/favicon.ico" 16 "boom" (by decide) rfl⟩

/-- C9: `resolve_svg` returns the explicit value verbatim when supplied and
non-empty (for every filesystem, so no existence check); otherwise the
conventional filename joined to the script's directory when that file
exists; otherwise the fallback path — the conventional subdirectory joined
with the conventional filename — whether or not it exists. -/
theorem C9_resolve_svg_order (fileExists : String → Bool) (script_dir : String)
    (arg_value : Option String) (script_name subdir : String) :
    (∀ v, arg_value = some v → v ≠ "" →
      resolve_svg fileExists script_dir arg_value script_name (joinPath subdir script_name) = v) ∧
    (truthy arg_value = false → fileExists (joinPath script_dir script_name) = true →
      resolve_svg fileExists script_dir arg_value script_name (joinPath subdir script_name)
        = joinPath script_dir script_name) ∧
    (truthy arg_value = false → fileExists (joinPath script_dir script_name) = false →
      resolve_svg fileExists script_dir arg_value script_name (joinPath subdir script_name)
        = joinPath subdir script_name) := by
  refine ⟨?_, ?_, ?_⟩
  · rintro v rfl hv
    simp [resolve_svg, truthy, hv]
  · intro ht hf
    simp [resolve_svg, ht, hf]
  · intro ht hf
    simp [resolve_svg, ht, hf]

/-- Witness for C9: explicit-value case on a filesystem with no files. -/
theorem C9_resolve_svg_order_witness :
    (some "explicit.svg" : Option String) = some "explicit.svg" ∧
    "explicit.svg" ≠ "" ∧
    resolve_svg (fun _ => false) "scripts" (some "explicit.svg") "logo_thumbnail.svg"
      (joinPath "brand-assets" "logo_thumbnail.svg") = "explicit.svg" :=
  ⟨rfl, by decide,
    (C9_resolve_svg_order (fun _ => false) "scripts" (some "explicit.svg")
      "logo_thumbnail.svg" "brand-assets").1 "explicit.svg" rfl (by decide)⟩

end BrandAssets
